import Mathlib

/-! Formal model of the CLIP OS Buildbot master configuration (`master.py`).

The configuration file declares a catalog of Docker latent workers (one
privileged and one unprivileged worker per "flavor" of build environment),
a catalog of builders tied to subsets of those workers, and a set of
periodic (Nightly) and forced (ad-hoc) schedulers carrying fixed property
sets respectively caller-editable parameter sets.

The flavor catalog `clipos.workers.DockerLatentWorker.FLAVORS` lives in the
`clipos` support package, outside the modelled configuration file; all
definitions are therefore parametric over the list of flavor names (the
keys of that dictionary, hence pairwise distinct where a theorem needs it).
-/

namespace CiBuildbot

/-- A worker as referenced from a builder configuration: either the single
local worker holding Docker-socket access, or a Docker latent worker
identified by its flavor and privilege flag. -/
inductive WorkerRef where
  | localWorker (name : String)
  | latent (flavor : String) (privileged : Bool)
  deriving DecidableEq

/-- One Docker latent worker entry of the worker catalog, as constructed by
the nested loops over flavors and the privileged flag in `master.py`. -/
structure DockerLatentWorkerCfg where
  flavor : String
  privileged : Bool
  max_builds : Nat
  deriving DecidableEq

/-- A builder configuration (`util.BuilderConfig`): name, tags and the
names of the workers the builder may run on. -/
structure BuilderConfig where
  name : String
  tags : List String
  workernames : List WorkerRef
  deriving DecidableEq

/-- A property value attached to a scheduler: Buildbot build properties in
this configuration are either booleans or strings. -/
inductive PropValue where
  | bool (b : Bool)
  | str (s : String)
  deriving DecidableEq

/-- The kind of a forced-scheduler parameter as declared in `master.py`
(`FixedParameter`, `BooleanParameter`, `StringParameter`, `TextParameter`,
`ChoiceStringParameter`). A `fixedParam` is not caller-changeable. -/
inductive ParamKind where
  | fixedParam
  | booleanParam
  | stringParam
  | textParam
  | choiceStringParam
  deriving DecidableEq

/-- One parameter of a forced scheduler: its raw key name, its kind, its
default value and (for choice parameters) the offered choices. The nested
parameter containers of `clipos_custom_build_force_sched` deliberately use
empty namespace names in the source, so flattening them is faithful. -/
structure ForceParam where
  name : String
  kind : ParamKind
  defaultValue : PropValue
  choices : List String := []
  deriving DecidableEq

/-- The time pattern of a `schedulers.Nightly` periodic scheduler. -/
structure NightlyTime where
  dayOfWeek : String
  hour : Nat
  minute : Nat
  deriving DecidableEq

/-- A scheduler configuration. Periodic (`Nightly`) schedulers carry a
fixed property mapping; forced (`ForceScheduler`) schedulers carry a list
of caller-visible parameters. -/
structure SchedulerCfg where
  name : String
  builderNames : List String
  periodic : Bool
  schedule : Option NightlyTime := none
  properties : List (String × PropValue) := []
  params : List ForceParam := []
  deriving DecidableEq

/-! ## Workers -/

/-- Name of the local worker reserved for Docker-socket operations
(`worker.LocalWorker('_docker-client-localworker')`). -/
def docker_operations_worker_name : String := "_docker-client-localworker"

/-- The single reference worker flavor (`reference_worker_flavor`). -/
def reference_worker_flavor : String := "debian-sid"

/-- The Docker latent worker catalog: for each flavor, an unprivileged and
a privileged worker, each capped at `max_builds = 5`, in the loop order of
`master.py` (`for privileged in [False, True]`). -/
def all_clipos_docker_latent_workers (flavors : List String) :
    List DockerLatentWorkerCfg :=
  flavors.flatMap (fun f => [⟨f, false, 5⟩, ⟨f, true, 5⟩])

/-- The unprivileged reference workers accumulated by the worker loop:
exactly the catalog entries with the reference flavor and
`privileged = False`. -/
def unprivileged_reference_workers (flavors : List String) :
    List DockerLatentWorkerCfg :=
  (all_clipos_docker_latent_workers flavors).filter
    (fun w => w.flavor == reference_worker_flavor && !w.privileged)

/-- The privileged reference workers accumulated by the worker loop:
exactly the catalog entries with the reference flavor and
`privileged = True`. -/
def privileged_reference_workers (flavors : List String) :
    List DockerLatentWorkerCfg :=
  (all_clipos_docker_latent_workers flavors).filter
    (fun w => w.flavor == reference_worker_flavor && w.privileged)

/-- The `c['workers']` list: the Docker-operations local worker followed by
all the Docker latent workers. -/
def configured_workers (flavors : List String) : List WorkerRef :=
  WorkerRef.localWorker docker_operations_worker_name ::
    (all_clipos_docker_latent_workers flavors).map
      (fun w => WorkerRef.latent w.flavor w.privileged)

/-! ## Builders -/

/-- Name of the Docker build-environment image builder for a flavor
(`'docker-worker-image env:{}'.format(flavor)`). -/
def docker_buildenv_image_builder_name (flavor : String) : String :=
  "docker-worker-image env:" ++ flavor

/-- The Docker build-environment image builder for one flavor: always tied
to the single worker having access to the Docker socket. -/
def docker_buildenv_image_builder (flavor : String) : BuilderConfig :=
  { name := docker_buildenv_image_builder_name flavor
  , tags := ["docker-worker-image", "docker-env:" ++ flavor]
  , workernames := [WorkerRef.localWorker docker_operations_worker_name] }

/-- All the Docker build-environment image builders, one per flavor. -/
def docker_buildenv_image_builders (flavors : List String) :
    List BuilderConfig :=
  flavors.map docker_buildenv_image_builder

/-- The `repo-sync` builder generating the source-tree snapshot artifacts,
tied to the reference-flavor Docker latent workers that are NOT
privileged. -/
def repo_sync_builder (flavors : List String) : BuilderConfig :=
  { name := "repo-sync"
  , tags := ["repo-sync", "update-artifacts"]
  , workernames :=
      ((all_clipos_docker_latent_workers flavors).filter
        (fun w => w.flavor == reference_worker_flavor && !w.privileged)).map
        (fun w => WorkerRef.latent w.flavor w.privileged) }

/-- Name of the CLIP OS product builder for a flavor: the reference flavor
builder is named plain `clipos`, the others get an ` env:<flavor>`
suffix. -/
def clipos_builder_name (flavor : String) : String :=
  if flavor = reference_worker_flavor then "clipos"
  else "clipos env:" ++ flavor

/-- The CLIP OS product builder for one flavor, tied to the privileged
Docker latent workers of that flavor. -/
def clipos_builder (flavors : List String) (flavor : String) :
    BuilderConfig :=
  { name := clipos_builder_name flavor
  , tags := ["clipos", "docker-env:" ++ flavor]
  , workernames :=
      ((all_clipos_docker_latent_workers flavors).filter
        (fun w => w.flavor == flavor && w.privileged)).map
        (fun w => WorkerRef.latent w.flavor w.privileged) }

/-- The CLIP OS product builders, one per flavor
(`clipos_on_all_flavors_builders`). -/
def clipos_on_all_flavors_builders (flavors : List String) :
    List BuilderConfig :=
  flavors.map (clipos_builder flavors)

/-- The builder kept as `reference_clipos_builder` by the loop: the CLIP OS
product builder of the reference flavor. -/
def reference_clipos_builder (flavors : List String) : BuilderConfig :=
  clipos_builder flavors reference_worker_flavor

/-- The on-demand CLIP OS builder, tied to the privileged reference
workers. -/
def clipos_ondemand_builder (flavors : List String) : BuilderConfig :=
  { name := "clipos ondemand"
  , tags := ["clipos", "on-demand", "docker-env:" ++ reference_worker_flavor]
  , workernames :=
      (privileged_reference_workers flavors).map
        (fun w => WorkerRef.latent w.flavor w.privileged) }

/-- The `c['builders']` list, in source order. -/
def builders (flavors : List String) : List BuilderConfig :=
  docker_buildenv_image_builders flavors
    ++ [repo_sync_builder flavors]
    ++ clipos_on_all_flavors_builders flavors
    ++ [clipos_ondemand_builder flavors]

/-! ## Periodic schedulers -/

/-- The nightly scheduler refreshing the `repo-sync` artifacts. -/
def repo_sync_nightly_sched : SchedulerCfg :=
  { name := "repo-sync-nightly-update"
  , builderNames := ["repo-sync"]
  , periodic := true
  , schedule := some ⟨"1,2,3,4,5", 0, 0⟩
  , properties := [("cleanup_workspace", PropValue.bool true)] }

/-- The fixed property set of the intra-day incremental build scheduler. -/
def clipos_incremental_build_intraday_props : List (String × PropValue) :=
  [ ("cleanup_workspace", PropValue.bool true)
  , ("force_repo_quicksync_artifacts_download", PropValue.bool false)
  , ("buildername_providing_repo_quicksync_artifacts", PropValue.str "repo-sync")
  , ("produce_sdks_artifacts", PropValue.bool false)
  , ("reuse_sdks_artifacts", PropValue.bool true)
  , ("buildername_providing_sdks_artifacts",
      PropValue.str (clipos_builder_name reference_worker_flavor))
  , ("produce_cache_artifacts", PropValue.bool false)
  , ("reuse_cache_artifacts", PropValue.bool true)
  , ("buildername_providing_cache_artifacts",
      PropValue.str (clipos_builder_name reference_worker_flavor))
  , ("produce_build_artifacts", PropValue.bool true) ]

/-- The intra-day incremental build scheduler, targeting only the
reference CLIP OS builder. -/
def clipos_incremental_build_intraday_sched : SchedulerCfg :=
  { name := "clipos-master-intraday-incremental-build"
  , builderNames := [clipos_builder_name reference_worker_flavor]
  , periodic := true
  , schedule := some ⟨"1,2,3,4,5", 12, 30⟩
  , properties := clipos_incremental_build_intraday_props }

/-- The fixed property set of the nightly from-scratch build scheduler. -/
def clipos_build_nightly_props : List (String × PropValue) :=
  [ ("cleanup_workspace", PropValue.bool true)
  , ("force_repo_quicksync_artifacts_download", PropValue.bool false)
  , ("buildername_providing_repo_quicksync_artifacts", PropValue.str "repo-sync")
  , ("produce_sdks_artifacts", PropValue.bool true)
  , ("reuse_sdks_artifacts", PropValue.bool false)
  , ("produce_cache_artifacts", PropValue.bool true)
  , ("reuse_cache_artifacts", PropValue.bool false)
  , ("produce_build_artifacts", PropValue.bool true) ]

/-- The nightly from-scratch build scheduler, targeting only the reference
CLIP OS builder. -/
def clipos_build_nightly_sched : SchedulerCfg :=
  { name := "clipos-master-nightly-build"
  , builderNames := [clipos_builder_name reference_worker_flavor]
  , periodic := true
  , schedule := some ⟨"1,2,3,4,5", 0, 45⟩
  , properties := clipos_build_nightly_props }

/-- The fixed property set of the weekly all-flavors build scheduler. -/
def clipos_build_weekly_props : List (String × PropValue) :=
  [ ("cleanup_workspace", PropValue.bool true)
  , ("force_repo_quicksync_artifacts_download", PropValue.bool true)
  , ("buildername_providing_repo_quicksync_artifacts", PropValue.str "repo-sync")
  , ("produce_sdks_artifacts", PropValue.bool true)
  , ("reuse_sdks_artifacts", PropValue.bool false)
  , ("produce_cache_artifacts", PropValue.bool true)
  , ("reuse_cache_artifacts", PropValue.bool false)
  , ("produce_build_artifacts", PropValue.bool true) ]

/-- The weekly build scheduler, targeting the CLIP OS builders of every
flavor. -/
def clipos_build_weekly_sched (flavors : List String) : SchedulerCfg :=
  { name := "clipos-master-weekly-build"
  , builderNames := (clipos_on_all_flavors_builders flavors).map (fun b => b.name)
  , periodic := true
  , schedule := some ⟨"6", 12, 0⟩
  , properties := clipos_build_weekly_props }

/-- The weekly scheduler rebuilding every Docker build-environment image. -/
def docker_buildenv_image_rebuild_weekly_sched (flavors : List String) :
    SchedulerCfg :=
  { name := "docker-workers-weekly-rebuild"
  , builderNames := (docker_buildenv_image_builders flavors).map (fun b => b.name)
  , periodic := true
  , schedule := some ⟨"6", 9, 0⟩ }

/-! ## Forced schedulers -/

/-- The forced scheduler rebuilding a Docker build-environment image. -/
def docker_buildenv_image_rebuild_force_sched (flavors : List String) :
    SchedulerCfg :=
  { name := "force-docker-buildenv-image"
  , builderNames := (docker_buildenv_image_builders flavors).map (fun b => b.name)
  , periodic := false }

/-- The forced scheduler resynchronizing the source tree from scratch. -/
def repo_sync_force_sched : SchedulerCfg :=
  { name := "force-repo-sync-clipos"
  , builderNames := ["repo-sync"]
  , periodic := false
  , params := [⟨"cleanup_workspace", ParamKind.fixedParam, PropValue.bool true, []⟩] }

/-- Default text of the `local_manifest_xml` parameter (the example
local-manifest, after the `.strip()` applied in the source). -/
def local_manifest_xml_default : String :=
  "<manifest>\n  <!--\n    This is an example of a local-manifest file: tweak it to your needs.\n    You can find examples below that use dummy values and that illustrate the\n    operations you may want to do with such a local-manifest file:\n  -->\n\n  <!-- How to declare an additional Git remote you can use futher down: -->\n  <remote name=\"foobaros-github\" fetch=\"https://github.com/foobaros\" />\n\n  <!-- How to remove from the source tree a useless item: -->\n  <remove-project name=\"src_external_uselessproject\" />\n\n  <!-- How to declare and checkout a new item in the source tree: -->\n  <project path=\"products/foobaros\" name=\"products_foobaros\" remote=\"foobaros-github\" revision=\"refs/changes/42/1342/7\" />\n\n  <!-- How to change the checkout properties of an existing source tree item: -->\n  <remove-project name=\"src_portage_clipos\" />\n  <project path=\"src/portage/clipos\" name=\"src_portage_clipos\" revision=\"refs/changes/37/1337/2\" />\n</manifest>"

/-- The parameters of the CLIP OS custom-build forced scheduler, in source
order, with the nested parameter containers flattened (their namespace
names are deliberately empty in the source). -/
def clipos_custom_build_force_params (flavors : List String) :
    List ForceParam :=
  [ ⟨"buildername_providing_repo_quicksync_artifacts", ParamKind.fixedParam,
      PropValue.str "repo-sync", []⟩
  , ⟨"use_local_manifest", ParamKind.booleanParam, PropValue.bool false, []⟩
  , ⟨"local_manifest_xml", ParamKind.textParam,
      PropValue.str local_manifest_xml_default, []⟩
  , ⟨"cleanup_workspace", ParamKind.booleanParam, PropValue.bool true, []⟩
  , ⟨"force_repo_quicksync_artifacts_download", ParamKind.booleanParam,
      PropValue.bool false, []⟩
  , ⟨"produce_sdks_artifacts", ParamKind.booleanParam, PropValue.bool false, []⟩
  , ⟨"reuse_sdks_artifacts", ParamKind.booleanParam, PropValue.bool true, []⟩
  , ⟨"buildername_providing_sdks_artifacts", ParamKind.choiceStringParam,
      PropValue.str (clipos_builder_name reference_worker_flavor),
      (clipos_on_all_flavors_builders flavors).map (fun b => b.name)⟩
  , ⟨"produce_cache_artifacts", ParamKind.booleanParam, PropValue.bool false, []⟩
  , ⟨"reuse_cache_artifacts", ParamKind.booleanParam, PropValue.bool true, []⟩
  , ⟨"buildername_providing_cache_artifacts", ParamKind.choiceStringParam,
      PropValue.str (clipos_builder_name reference_worker_flavor),
      (clipos_on_all_flavors_builders flavors).map (fun b => b.name)⟩
  , ⟨"produce_build_artifacts", ParamKind.booleanParam, PropValue.bool false, []⟩ ]

/-- The forced scheduler for CLIP OS on-demand custom builds. -/
def clipos_custom_build_force_sched (flavors : List String) : SchedulerCfg :=
  { name := "clipos-custom-build"
  , builderNames := ["clipos ondemand"]
  , periodic := false
  , params := clipos_custom_build_force_params flavors }

/-- The `c['schedulers']` list, in source order. -/
def schedulers (flavors : List String) : List SchedulerCfg :=
  [ clipos_incremental_build_intraday_sched
  , repo_sync_nightly_sched
  , clipos_build_nightly_sched
  , clipos_build_weekly_sched flavors
  , docker_buildenv_image_rebuild_weekly_sched flavors
  , repo_sync_force_sched
  , docker_buildenv_image_rebuild_force_sched flavors
  , clipos_custom_build_force_sched flavors ]

/-! ## Artifact kinds and stage-policy semantics -/

/-- The artifact kinds of the build pipeline. -/
inductive ArtifactKind where
  | SOURCE_SNAPSHOT
  | SDK_BUNDLE
  | PACKAGE_CACHE
  | BUILD_OUTPUT
  | AGENT_IMAGE
  deriving DecidableEq

/-- A stage-policy value for one artifact kind. -/
inductive PolicyValue where
  | PRODUCE
  | REUSE (source_target : String)
  | SKIP
  deriving DecidableEq

/-- Modelled from the spec: the Validator semantics of the "force
re-fetch" boolean is implemented by `clipos.build_factories`, which is not
part of the modelled configuration file. Per the spec, the boolean
"overrides a would-be REUSE into PRODUCE for exactly the SOURCE_SNAPSHOT
kind" and leaves every other kind's policy untouched. -/
def applyForceFetch (force : Bool) (kind : ArtifactKind) (p : PolicyValue) :
    PolicyValue :=
  if force = true ∧ kind = ArtifactKind.SOURCE_SNAPSHOT then PolicyValue.PRODUCE
  else p

/-- The raw-parameter key stem the configuration uses for an artifact
kind: `produce_<stem>` and `reuse_<stem>` are the policy flags of that
kind. The agent-image kind has no policy flags at all. -/
def kindStem : ArtifactKind → Option String
  | ArtifactKind.SOURCE_SNAPSHOT => some "repo_quicksync_artifacts"
  | ArtifactKind.SDK_BUNDLE => some "sdks_artifacts"
  | ArtifactKind.PACKAGE_CACHE => some "cache_artifacts"
  | ArtifactKind.BUILD_OUTPUT => some "build_artifacts"
  | ArtifactKind.AGENT_IMAGE => none

/-- Look up a boolean property in a scheduler property mapping. -/
def boolProp (props : List (String × PropValue)) (k : String) : Option Bool :=
  match props.lookup k with
  | some (PropValue.bool b) => some b
  | _ => none

/-- The `produce_<kind>` flag carried by a property mapping for a kind. -/
def producePolicyFlag (props : List (String × PropValue))
    (kind : ArtifactKind) : Option Bool :=
  (kindStem kind).bind (fun st => boolProp props ("produce_" ++ st))

/-- The `reuse_<kind>` flag carried by a property mapping for a kind. -/
def reusePolicyFlag (props : List (String × PropValue))
    (kind : ArtifactKind) : Option Bool :=
  (kindStem kind).bind (fun st => boolProp props ("reuse_" ++ st))

/-- Kernel-reducible string prefix test (on the character lists). -/
def strBegins (s p : String) : Bool :=
  p.data.isPrefixOf s.data

/-- The shapes of raw parameter keys recognized by the spec's trigger
surface: `cleanup_workspace`, `force_fetch_<kind>`, `produce_<kind>`,
`reuse_<kind>`, `source_target_for_<kind>`. -/
inductive KeyShape where
  | cleanupWorkspace
  | forceFetch
  | produceKind
  | reuseKind
  | sourceTargetFor
  deriving DecidableEq

/-- Modelled from the spec: classification of the configuration's raw
parameter keys into the spec's recognized key shapes. The spec renames the
concrete keys into abstract shapes: the `force_…_download` key is its
`force_fetch_<kind>`, and the `buildername_providing_<kind>` keys are its
`source_target_for_<kind>`. A key matching no shape is unrecognized. -/
def keyShape (k : String) : Option KeyShape :=
  if k = "cleanup_workspace" then some KeyShape.cleanupWorkspace
  else if strBegins k "force_" then some KeyShape.forceFetch
  else if strBegins k "produce_" then some KeyShape.produceKind
  else if strBegins k "reuse_" then some KeyShape.reuseKind
  else if strBegins k "buildername_providing_" then some KeyShape.sourceTargetFor
  else none

/-- Every Docker latent worker a builder is tied to is privileged (true
vacuously for workers that are not latent workers). -/
def allLatentPrivileged (b : BuilderConfig) : Bool :=
  b.workernames.all (fun w =>
    match w with
    | WorkerRef.latent _ p => p
    | WorkerRef.localWorker _ => true)

/-- Every Docker latent worker a builder is tied to is unprivileged (true
vacuously for workers that are not latent workers). -/
def allLatentUnprivileged (b : BuilderConfig) : Bool :=
  b.workernames.all (fun w =>
    match w with
    | WorkerRef.latent _ p => !p
    | WorkerRef.localWorker _ => true)

/-- The raw parameter keys a scheduler exposes: the keys of its fixed
property mapping (periodic schedulers) together with the names of its
caller-visible parameters (forced schedulers). -/
def schedulerRawParamKeys (s : SchedulerCfg) : List String :=
  s.properties.map (fun p => p.1) ++ s.params.map (fun p => p.name)

/-- All raw parameter keys exposed by any configured trigger, periodic or
forced. -/
def all_trigger_param_keys (flavors : List String) : List String :=
  ((schedulers flavors).map schedulerRawParamKeys).flatten

/-- Look up the default value of a forced-scheduler parameter by key. -/
def paramDefault (ps : List ForceParam) (k : String) : Option PropValue :=
  (ps.find? (fun p => p.name == k)).map (fun p => p.defaultValue)

/-! ## Helper lemmas on strings and names -/

theorem string_append_left_cancel {p x y : String} (h : p ++ x = p ++ y) :
    x = y := by
  have hd : p.data ++ x.data = p.data ++ y.data := congrArg String.data h
  have hxy := List.append_cancel_left hd
  calc x = String.mk x.data := rfl
    _ = String.mk y.data := by rw [hxy]
    _ = y := rfl

theorem append_ne_append_at (p q x y : String) (i : Nat)
    (h1 : i < p.data.length) (h2 : i < q.data.length)
    (h3 : p.data[i]? ≠ q.data[i]?) : p ++ x ≠ q ++ y := by
  intro e
  have hd : p.data ++ x.data = q.data ++ y.data := congrArg String.data e
  have hh : (p.data ++ x.data)[i]? = (q.data ++ y.data)[i]? := by rw [hd]
  rw [List.getElem?_append_left h1, List.getElem?_append_left h2] at hh
  exact h3 hh

theorem append_ne_at (p x t : String) (i : Nat)
    (h1 : i < p.data.length)
    (h3 : p.data[i]? ≠ t.data[i]?) : p ++ x ≠ t := by
  intro e
  have hd : p.data ++ x.data = t.data := congrArg String.data e
  have hh : (p.data ++ x.data)[i]? = t.data[i]? := by rw [hd]
  rw [List.getElem?_append_left h1] at hh
  exact h3 hh

theorem clipos_builder_name_ref :
    clipos_builder_name reference_worker_flavor = "clipos" := rfl

theorem clipos_builder_name_of_ne (f : String)
    (hf : f ≠ reference_worker_flavor) :
    clipos_builder_name f = "clipos env:" ++ f := by
  simp [clipos_builder_name, hf]

theorem clipos_builder_name_injective :
    Function.Injective clipos_builder_name := by
  intro f g h
  by_cases hf : f = reference_worker_flavor <;>
    by_cases hg : g = reference_worker_flavor
  · rw [hf, hg]
  · exfalso
    rw [hf, clipos_builder_name_ref, clipos_builder_name_of_ne g hg] at h
    exact append_ne_at "clipos env:" g "clipos" 6 (by decide) (by decide) h.symm
  · exfalso
    rw [hg, clipos_builder_name_ref, clipos_builder_name_of_ne f hf] at h
    exact append_ne_at "clipos env:" f "clipos" 6 (by decide) (by decide) h
  · rw [clipos_builder_name_of_ne f hf, clipos_builder_name_of_ne g hg] at h
    exact string_append_left_cancel h

theorem docker_buildenv_image_builder_name_injective :
    Function.Injective docker_buildenv_image_builder_name := by
  intro f g h
  exact string_append_left_cancel h

theorem clipos_name_ne_repo_sync (f : String) :
    clipos_builder_name f ≠ "repo-sync" := by
  by_cases hf : f = reference_worker_flavor
  · rw [hf, clipos_builder_name_ref]; decide
  · rw [clipos_builder_name_of_ne f hf]
    exact append_ne_at "clipos env:" f "repo-sync" 0 (by decide) (by decide)

theorem clipos_name_ne_ondemand (f : String) :
    clipos_builder_name f ≠ "clipos ondemand" := by
  by_cases hf : f = reference_worker_flavor
  · rw [hf, clipos_builder_name_ref]; decide
  · rw [clipos_builder_name_of_ne f hf]
    exact append_ne_at "clipos env:" f "clipos ondemand" 7 (by decide) (by decide)

theorem clipos_name_ne_docker (f g : String) :
    clipos_builder_name f ≠ docker_buildenv_image_builder_name g := by
  by_cases hf : f = reference_worker_flavor
  · rw [hf, clipos_builder_name_ref]
    exact (append_ne_at "docker-worker-image env:" g "clipos" 0 (by decide)
      (by decide)).symm
  · rw [clipos_builder_name_of_ne f hf]
    exact append_ne_append_at "clipos env:" "docker-worker-image env:" f g 0
      (by decide) (by decide) (by decide)

theorem repo_sync_ne_docker (g : String) :
    "repo-sync" ≠ docker_buildenv_image_builder_name g :=
  (append_ne_at "docker-worker-image env:" g "repo-sync" 0 (by decide)
    (by decide)).symm

theorem ondemand_ne_docker (g : String) :
    "clipos ondemand" ≠ docker_buildenv_image_builder_name g :=
  (append_ne_at "docker-worker-image env:" g "clipos ondemand" 0 (by decide)
    (by decide)).symm

/-! ## Helper lemmas on the worker catalog -/

theorem mem_all_clipos_docker_latent_workers (flavors : List String)
    (w : DockerLatentWorkerCfg) :
    w ∈ all_clipos_docker_latent_workers flavors
      ↔ w.flavor ∈ flavors ∧ w.max_builds = 5 := by
  simp only [all_clipos_docker_latent_workers, List.mem_flatMap, List.mem_cons,
    List.not_mem_nil, or_false]
  constructor
  · rintro ⟨g, hg, hw | hw⟩ <;> (subst hw; exact ⟨hg, rfl⟩)
  · rintro ⟨hf, hm⟩
    refine ⟨w.flavor, hf, ?_⟩
    cases w with
    | mk f b m =>
      cases hm
      cases b
      · exact Or.inl rfl
      · exact Or.inr rfl

theorem filter_all_workers_eq_nil (flavors : List String) (f : String)
    (hf : f ∉ flavors) :
    (all_clipos_docker_latent_workers flavors).filter
      (fun w => w.flavor == f) = [] := by
  rw [List.filter_eq_nil_iff]
  intro w hw
  have hmem := (mem_all_clipos_docker_latent_workers flavors w).1 hw
  simp only [beq_iff_eq]
  intro he
  exact hf (he ▸ hmem.1)

theorem filter_all_workers_of_mem (flavors : List String)
    (hnd : flavors.Nodup) (f : String) (hf : f ∈ flavors) :
    (all_clipos_docker_latent_workers flavors).filter
      (fun w => w.flavor == f) = [⟨f, false, 5⟩, ⟨f, true, 5⟩] := by
  induction flavors with
  | nil => cases hf
  | cons g rest ih =>
    have hstep : all_clipos_docker_latent_workers (g :: rest)
        = ⟨g, false, 5⟩ :: ⟨g, true, 5⟩ :: all_clipos_docker_latent_workers rest :=
      rfl
    rcases List.mem_cons.1 hf with rfl | hf2
    · have hg : f ∉ rest := (List.nodup_cons.1 hnd).1
      rw [hstep, List.filter_cons, List.filter_cons]
      simp only [beq_self_eq_true, if_pos]
      rw [filter_all_workers_eq_nil rest f hg]
    · have hne : g ≠ f := by
        rintro rfl
        exact (List.nodup_cons.1 hnd).1 hf2
      rw [hstep, List.filter_cons, List.filter_cons]
      simp only [show ((⟨g, false, 5⟩ : DockerLatentWorkerCfg).flavor == f) = false
          from beq_eq_false_iff_ne.2 hne,
        show ((⟨g, true, 5⟩ : DockerLatentWorkerCfg).flavor == f) = false
          from beq_eq_false_iff_ne.2 hne, if_neg, Bool.false_eq_true,
        not_false_eq_true]
      exact ih (List.nodup_cons.1 hnd).2 hf2

/-! ## Claims -/

/-- C1, counterexample: the claim says the repo-sync builder (producing the
source-tree snapshot) is tied only to privileged workers. In the
configuration it is tied exactly to the unprivileged reference-flavor
latent worker, so the claimed privilege assignment is false. -/
theorem claim_C1_counterexample :
    (repo_sync_builder ["debian-sid"]).workernames
        = [WorkerRef.latent "debian-sid" false]
      ∧ allLatentPrivileged (repo_sync_builder ["debian-sid"]) = false := by
  decide

/-- C1, amended: the privilege assignment is the opposite of the claimed
one. The repo-sync builder (source-snapshot stage) is tied only to
unprivileged reference workers, while the CLIP OS product builders (which
produce the SDK, cache and build-output artifacts) and the on-demand
builder are tied only to privileged workers; all these worker sets are
nonempty when the reference flavor is in the catalog. -/
theorem claim_C1_amended (flavors : List String)
    (href : reference_worker_flavor ∈ flavors) :
    allLatentUnprivileged (repo_sync_builder flavors) = true
      ∧ (repo_sync_builder flavors).workernames ≠ []
      ∧ (∀ f ∈ flavors, allLatentPrivileged (clipos_builder flavors f) = true
          ∧ (clipos_builder flavors f).workernames ≠ [])
      ∧ allLatentPrivileged (clipos_ondemand_builder flavors) = true
      ∧ (clipos_ondemand_builder flavors).workernames ≠ [] := by
  have hmem : ∀ (f : String) (b : Bool), f ∈ flavors →
      (⟨f, b, 5⟩ : DockerLatentWorkerCfg)
        ∈ all_clipos_docker_latent_workers flavors := by
    intro f b hf
    exact (mem_all_clipos_docker_latent_workers flavors ⟨f, b, 5⟩).2 ⟨hf, rfl⟩
  refine ⟨?_, ?_, ?_, ?_, ?_⟩
  · simp only [allLatentUnprivileged, repo_sync_builder, List.all_eq_true,
      List.mem_map, List.mem_filter]
    rintro w ⟨u, ⟨hu, hpred⟩, rfl⟩
    simp only [Bool.and_eq_true, beq_iff_eq, Bool.not_eq_eq_eq_not,
      Bool.not_true] at hpred
    simp [hpred.2]
  · simp only [repo_sync_builder]
    intro hnil
    rw [List.map_eq_nil_iff] at hnil
    have : (⟨reference_worker_flavor, false, 5⟩ : DockerLatentWorkerCfg)
        ∈ (all_clipos_docker_latent_workers flavors).filter
          (fun w => w.flavor == reference_worker_flavor && !w.privileged) :=
      List.mem_filter.2 ⟨hmem _ _ href, by simp⟩
    rw [hnil] at this
    cases this
  · intro f hf
    constructor
    · simp only [allLatentPrivileged, clipos_builder, List.all_eq_true,
        List.mem_map, List.mem_filter]
      rintro w ⟨u, ⟨hu, hpred⟩, rfl⟩
      simp only [Bool.and_eq_true, beq_iff_eq] at hpred
      simp [hpred.2]
    · simp only [clipos_builder]
      intro hnil
      rw [List.map_eq_nil_iff] at hnil
      have : (⟨f, true, 5⟩ : DockerLatentWorkerCfg)
          ∈ (all_clipos_docker_latent_workers flavors).filter
            (fun w => w.flavor == f && w.privileged) :=
        List.mem_filter.2 ⟨hmem _ _ hf, by simp⟩
      rw [hnil] at this
      cases this
  · simp only [allLatentPrivileged, clipos_ondemand_builder,
      privileged_reference_workers, List.all_eq_true, List.mem_map,
      List.mem_filter]
    rintro w ⟨u, ⟨hu, hpred⟩, rfl⟩
    simp only [Bool.and_eq_true, beq_iff_eq] at hpred
    simp [hpred.2]
  · simp only [clipos_ondemand_builder, privileged_reference_workers]
    intro hnil
    rw [List.map_eq_nil_iff] at hnil
    have : (⟨reference_worker_flavor, true, 5⟩ : DockerLatentWorkerCfg)
        ∈ (all_clipos_docker_latent_workers flavors).filter
          (fun w => w.flavor == reference_worker_flavor && w.privileged) :=
      List.mem_filter.2 ⟨hmem _ _ href, by simp⟩
    rw [hnil] at this
    cases this

/-- C1, witness: the amended theorem applied to the singleton flavor
catalog, at the reference flavor. -/
theorem claim_C1_witness :
    allLatentPrivileged (clipos_builder ["debian-sid"] "debian-sid") = true
      ∧ (clipos_builder ["debian-sid"] "debian-sid").workernames ≠ [] :=
  (claim_C1_amended ["debian-sid"] (by decide)).2.2.1 "debian-sid" (by decide)

/-- C2, counterexample: the ad-hoc (forced) trigger surface accepts the
raw parameter key `use_local_manifest`, which matches none of the
recognized key shapes (`cleanup_workspace`, `force_fetch_<kind>`,
`produce_<kind>`, `reuse_<kind>`, `source_target_for_<kind>`), so the
accepted key set is not exactly those shapes. -/
theorem claim_C2_counterexample :
    "use_local_manifest"
        ∈ (clipos_custom_build_force_params ["debian-sid"]).map (fun p => p.name)
      ∧ keyShape "use_local_manifest" = none := by
  decide

/-- C2, amended: the raw parameter keys accepted by the forced trigger
surface are exactly the twelve keys below; every one of them matches a
recognized key shape except the two local-manifest keys
`use_local_manifest` and `local_manifest_xml`, which fall outside the
claimed shapes. -/
theorem claim_C2_amended (flavors : List String) :
    (clipos_custom_build_force_params flavors).map (fun p => p.name)
        = ["buildername_providing_repo_quicksync_artifacts",
           "use_local_manifest", "local_manifest_xml", "cleanup_workspace",
           "force_repo_quicksync_artifacts_download", "produce_sdks_artifacts",
           "reuse_sdks_artifacts", "buildername_providing_sdks_artifacts",
           "produce_cache_artifacts", "reuse_cache_artifacts",
           "buildername_providing_cache_artifacts", "produce_build_artifacts"]
      ∧ ∀ k ∈ (clipos_custom_build_force_params flavors).map (fun p => p.name),
          (keyShape k).isSome = true
            ∨ k = "use_local_manifest" ∨ k = "local_manifest_xml" := by
  refine ⟨rfl, ?_⟩
  intro k hk
  have hk2 : k ∈ ["buildername_providing_repo_quicksync_artifacts",
      "use_local_manifest", "local_manifest_xml", "cleanup_workspace",
      "force_repo_quicksync_artifacts_download", "produce_sdks_artifacts",
      "reuse_sdks_artifacts", "buildername_providing_sdks_artifacts",
      "produce_cache_artifacts", "reuse_cache_artifacts",
      "buildername_providing_cache_artifacts", "produce_build_artifacts"] := hk
  simp only [List.mem_cons, List.not_mem_nil, or_false] at hk2
  rcases hk2 with rfl | rfl | rfl | rfl | rfl | rfl | rfl | rfl | rfl | rfl | rfl | rfl <;>
    decide

/-- C2, witness: the amended theorem applied to a concrete key accepted by
the surface on a singleton flavor catalog. -/
theorem claim_C2_witness :
    (keyShape "produce_sdks_artifacts").isSome = true
      ∨ "produce_sdks_artifacts" = "use_local_manifest"
      ∨ "produce_sdks_artifacts" = "local_manifest_xml" :=
  (claim_C2_amended ["debian-sid"]).2 "produce_sdks_artifacts" (by decide)

/-- C3: on the forced trigger surface, every `reuse_<kind>` parameter
defaults to true and every `produce_<kind>` parameter defaults to false;
in particular the SDK and cache kinds default to reuse=true/produce=false
and the build-output kind to produce=false. -/
theorem claim_C3 (flavors : List String) :
    (∀ p ∈ clipos_custom_build_force_params flavors,
        (strBegins p.name "reuse_" = true → p.defaultValue = PropValue.bool true)
      ∧ (strBegins p.name "produce_" = true → p.defaultValue = PropValue.bool false))
      ∧ paramDefault (clipos_custom_build_force_params flavors)
          "reuse_sdks_artifacts" = some (PropValue.bool true)
      ∧ paramDefault (clipos_custom_build_force_params flavors)
          "reuse_cache_artifacts" = some (PropValue.bool true)
      ∧ paramDefault (clipos_custom_build_force_params flavors)
          "produce_sdks_artifacts" = some (PropValue.bool false)
      ∧ paramDefault (clipos_custom_build_force_params flavors)
          "produce_cache_artifacts" = some (PropValue.bool false)
      ∧ paramDefault (clipos_custom_build_force_params flavors)
          "produce_build_artifacts" = some (PropValue.bool false) := by
  refine ⟨?_, rfl, rfl, rfl, rfl, rfl⟩
  intro p hp
  simp only [clipos_custom_build_force_params, List.mem_cons,
    List.not_mem_nil, or_false] at hp
  rcases hp with rfl | rfl | rfl | rfl | rfl | rfl | rfl | rfl | rfl | rfl | rfl | rfl <;>
    first
    | exact ⟨fun h => rfl, fun h => absurd h (by decide)⟩
    | exact ⟨fun h => absurd h (by decide), fun h => rfl⟩
    | exact ⟨fun h => absurd h (by decide), fun h => absurd h (by decide)⟩
    | exact ⟨fun h => absurd h (show
          ¬(strBegins "buildername_providing_sdks_artifacts" "reuse_" = true)
          by decide),
        fun h => absurd h (show
          ¬(strBegins "buildername_providing_sdks_artifacts" "produce_" = true)
          by decide)⟩

/-- C3, witness: the universally quantified part applied to the concrete
`reuse_sdks_artifacts` parameter. -/
theorem claim_C3_witness :
    (strBegins "reuse_sdks_artifacts" "reuse_" = true
        → PropValue.bool true = PropValue.bool true)
      ∧ (strBegins "reuse_sdks_artifacts" "produce_" = true
        → PropValue.bool true = PropValue.bool false) :=
  (claim_C3 ["debian-sid"]).1
    ⟨"reuse_sdks_artifacts", ParamKind.booleanParam, PropValue.bool true, []⟩
    (by decide)

/-- C4: the only force flag exposed by any trigger of the configuration,
periodic or forced, is `force_repo_quicksync_artifacts_download`, the one
for the source-tree quick-sync (SOURCE_SNAPSHOT) artifact; and the
spec-modelled Validator semantics of that flag turns a would-be REUSE into
PRODUCE for the SOURCE_SNAPSHOT kind and leaves every other kind (and the
unforced case) untouched. -/
theorem claim_C4 (flavors : List String) :
    ((all_trigger_param_keys flavors).filter
          (fun k => strBegins k "force_")).dedup
        = ["force_repo_quicksync_artifacts_download"]
      ∧ (∀ s, applyForceFetch true ArtifactKind.SOURCE_SNAPSHOT
          (PolicyValue.REUSE s) = PolicyValue.PRODUCE)
      ∧ (∀ kind p, kind ≠ ArtifactKind.SOURCE_SNAPSHOT
          → applyForceFetch true kind p = p)
      ∧ (∀ kind p, applyForceFetch false kind p = p) := by
  refine ⟨rfl, fun s => rfl, ?_, ?_⟩
  · intro kind p h
    simp [applyForceFetch, h]
  · intro kind p
    simp [applyForceFetch]

/-- C4, witness: a forced REUSE of the SDK kind is not overridden. -/
theorem claim_C4_witness :
    applyForceFetch true ArtifactKind.SDK_BUNDLE (PolicyValue.REUSE "clipos")
      = PolicyValue.REUSE "clipos" :=
  (claim_C4 ["debian-sid"]).2.2.1 ArtifactKind.SDK_BUNDLE
    (PolicyValue.REUSE "clipos") (by decide)

/-- C5: no scheduler of the configuration carries both
`produce_<kind> = true` and `reuse_<kind> = true` for the same artifact
kind in its fixed property set; in particular no periodic trigger ever
enqueues a contradictory PRODUCE+REUSE policy. -/
theorem claim_C5 (flavors : List String) (s : SchedulerCfg)
    (hs : s ∈ schedulers flavors) (hper : s.periodic = true)
    (kind : ArtifactKind) :
    ¬(producePolicyFlag s.properties kind = some true
        ∧ reusePolicyFlag s.properties kind = some true) := by
  simp only [schedulers, List.mem_cons, List.not_mem_nil, or_false] at hs
  rcases hs with rfl | rfl | rfl | rfl | rfl | rfl | rfl | rfl <;>
    simp only [clipos_incremental_build_intraday_sched, repo_sync_nightly_sched,
      clipos_build_nightly_sched, clipos_build_weekly_sched,
      docker_buildenv_image_rebuild_weekly_sched, repo_sync_force_sched,
      docker_buildenv_image_rebuild_force_sched,
      clipos_custom_build_force_sched] <;>
    cases kind <;> decide

/-- C5, witness: the nightly build scheduler never pairs produce and reuse
for the SDK bundle kind. -/
theorem claim_C5_witness :
    ¬(producePolicyFlag clipos_build_nightly_props ArtifactKind.SDK_BUNDLE
          = some true
        ∧ reusePolicyFlag clipos_build_nightly_props ArtifactKind.SDK_BUNDLE
          = some true) :=
  claim_C5 ["debian-sid"] clipos_build_nightly_sched (by decide) (by decide)
    ArtifactKind.SDK_BUNDLE

/-- C6: when left unspecified, the source-target reference of each
reusable kind defaults to a single canonical target: the (fixed, not
caller-changeable) `repo-sync` builder for the source-snapshot kind, and
the reference CLIP OS builder for the SDK and cache kinds. -/
theorem claim_C6 (flavors : List String) :
    (clipos_custom_build_force_params flavors).find?
        (fun p => p.name == "buildername_providing_repo_quicksync_artifacts")
      = some ⟨"buildername_providing_repo_quicksync_artifacts",
          ParamKind.fixedParam, PropValue.str "repo-sync", []⟩
    ∧ (clipos_custom_build_force_params flavors).find?
        (fun p => p.name == "buildername_providing_sdks_artifacts")
      = some ⟨"buildername_providing_sdks_artifacts",
          ParamKind.choiceStringParam,
          PropValue.str (clipos_builder_name reference_worker_flavor),
          (clipos_on_all_flavors_builders flavors).map (fun b => b.name)⟩
    ∧ (clipos_custom_build_force_params flavors).find?
        (fun p => p.name == "buildername_providing_cache_artifacts")
      = some ⟨"buildername_providing_cache_artifacts",
          ParamKind.choiceStringParam,
          PropValue.str (clipos_builder_name reference_worker_flavor),
          (clipos_on_all_flavors_builders flavors).map (fun b => b.name)⟩
    ∧ clipos_builder_name reference_worker_flavor
        = (reference_clipos_builder flavors).name
    ∧ (repo_sync_builder flavors).name = "repo-sync" :=
  ⟨rfl, rfl, rfl, rfl, rfl⟩

/-- C7: the reference flavor is the single designated one; the intra-day
and nightly CLIP OS build schedulers target only the reference builder
(named plain `clipos`), the weekly scheduler targets the builders of every
flavor, and a non-reference flavor's builder is targeted by no configured
scheduler other than the weekly one. -/
theorem claim_C7 (flavors : List String) :
    clipos_builder_name reference_worker_flavor = "clipos"
      ∧ clipos_incremental_build_intraday_sched.builderNames
        = [clipos_builder_name reference_worker_flavor]
      ∧ clipos_build_nightly_sched.builderNames
        = [clipos_builder_name reference_worker_flavor]
      ∧ (clipos_build_weekly_sched flavors).builderNames
        = flavors.map clipos_builder_name
      ∧ (∀ f ∈ flavors, f ≠ reference_worker_flavor →
          ∀ s ∈ schedulers flavors, clipos_builder_name f ∈ s.builderNames →
            s = clipos_build_weekly_sched flavors) := by
  refine ⟨rfl, rfl, rfl, ?_, ?_⟩
  · show (flavors.map (clipos_builder flavors)).map (fun b => b.name) = _
    rw [List.map_map]
    rfl
  · intro f hf hne s hs hmem
    simp only [schedulers, List.mem_cons, List.not_mem_nil, or_false] at hs
    rcases hs with rfl | rfl | rfl | rfl | rfl | rfl | rfl | rfl
    · exact absurd (clipos_builder_name_injective (List.mem_singleton.1 hmem))
        hne
    · exact absurd (List.mem_singleton.1 hmem) (clipos_name_ne_repo_sync f)
    · exact absurd (clipos_builder_name_injective (List.mem_singleton.1 hmem))
        hne
    · rfl
    · exfalso
      have hmem2 : clipos_builder_name f
          ∈ (flavors.map docker_buildenv_image_builder).map (fun b => b.name) :=
        hmem
      rw [List.map_map] at hmem2
      rcases List.mem_map.1 hmem2 with ⟨g, hg, he⟩
      exact clipos_name_ne_docker f g he.symm
    · exact absurd (List.mem_singleton.1 hmem) (clipos_name_ne_repo_sync f)
    · exfalso
      have hmem2 : clipos_builder_name f
          ∈ (flavors.map docker_buildenv_image_builder).map (fun b => b.name) :=
        hmem
      rw [List.map_map] at hmem2
      rcases List.mem_map.1 hmem2 with ⟨g, hg, he⟩
      exact clipos_name_ne_docker f g he.symm
    · exact absurd (List.mem_singleton.1 hmem) (clipos_name_ne_ondemand f)

/-- C7, witness: on a two-flavor catalog, the weekly scheduler is the one
targeting the non-reference builder. -/
theorem claim_C7_witness :
    clipos_build_weekly_sched ["debian-sid", "archlinux"]
      = clipos_build_weekly_sched ["debian-sid", "archlinux"] :=
  (claim_C7 ["debian-sid", "archlinux"]).2.2.2.2 "archlinux" (by decide)
    (by decide) (clipos_build_weekly_sched ["debian-sid", "archlinux"])
    (by decide) (by decide)

/-- C8: for distinct flavor names, the worker catalog holds exactly one
worker per (flavor, privileged) identity: the identities are pairwise
distinct, each flavor of the set contributes exactly its unprivileged and
its privileged worker (in that order), and every catalog entry's flavor is
in the flavor set. -/
theorem claim_C8 (flavors : List String) (hnd : flavors.Nodup) :
    ((all_clipos_docker_latent_workers flavors).map
        (fun w => (w.flavor, w.privileged))).Nodup
      ∧ (∀ f ∈ flavors,
          (all_clipos_docker_latent_workers flavors).filter
            (fun w => w.flavor == f) = [⟨f, false, 5⟩, ⟨f, true, 5⟩])
      ∧ (∀ w : DockerLatentWorkerCfg,
          w ∈ all_clipos_docker_latent_workers flavors
            → w.flavor ∈ flavors) := by
  refine ⟨?_, ?_, ?_⟩
  · rw [all_clipos_docker_latent_workers, List.map_flatMap, List.nodup_flatMap]
    constructor
    · intro f hf
      simp
    · refine List.Pairwise.imp ?_ hnd
      intro a b hab x hxa hxb
      simp only [List.map_cons, List.map_nil, List.mem_cons,
        List.not_mem_nil, or_false] at hxa hxb
      rcases hxa with rfl | rfl <;> rcases hxb with h | h <;>
        exact hab (congrArg Prod.fst h)
  · exact fun f hf => filter_all_workers_of_mem flavors hnd f hf
  · exact fun w hw =>
      ((mem_all_clipos_docker_latent_workers flavors w).1 hw).1

/-- C8, witness: the catalog identities of a concrete two-flavor set are
pairwise distinct. -/
theorem claim_C8_witness :
    ((all_clipos_docker_latent_workers ["debian-sid", "archlinux"]).map
        (fun w => (w.flavor, w.privileged))).Nodup :=
  (claim_C8 ["debian-sid", "archlinux"] (by decide)).1

/-- C9: every Docker build-environment image builder is tied to exactly
the one worker name of the Docker-operations local worker, and no other
builder of the catalog references any local worker. -/
theorem claim_C9 (flavors : List String) :
    (∀ b ∈ docker_buildenv_image_builders flavors,
        b.workernames = [WorkerRef.localWorker docker_operations_worker_name])
      ∧ (∀ b ∈ [repo_sync_builder flavors]
            ++ clipos_on_all_flavors_builders flavors
            ++ [clipos_ondemand_builder flavors],
          ∀ w ∈ b.workernames, ∀ n, w ≠ WorkerRef.localWorker n) := by
  constructor
  · intro b hb
    rcases List.mem_map.1 hb with ⟨f, hf, rfl⟩
    rfl
  · intro b hb w hw n
    simp only [List.mem_append, List.mem_singleton] at hb
    rcases hb with (rfl | hb) | rfl
    · rcases List.mem_map.1 hw with ⟨u, hu, rfl⟩
      exact fun h => WorkerRef.noConfusion h
    · rcases List.mem_map.1 hb with ⟨f, hf, rfl⟩
      rcases List.mem_map.1 hw with ⟨u, hu, rfl⟩
      exact fun h => WorkerRef.noConfusion h
    · rcases List.mem_map.1 hw with ⟨u, hu, rfl⟩
      exact fun h => WorkerRef.noConfusion h

/-- C9, witness: a concrete image builder is tied to exactly the
Docker-operations worker. -/
theorem claim_C9_witness :
    (docker_buildenv_image_builder "debian-sid").workernames
      = [WorkerRef.localWorker docker_operations_worker_name] :=
  (claim_C9 ["debian-sid"]).1 (docker_buildenv_image_builder "debian-sid")
    (by decide)

/-- C10: the registered builder names are the image-builder names (with
the flavor embedded), `repo-sync`, the CLIP OS builder names (plain
`clipos` for the reference flavor, ` env:<flavor>` suffix otherwise) and
`clipos ondemand`, and for distinct flavor names they are pairwise
distinct. -/
theorem claim_C10 (flavors : List String) (hnd : flavors.Nodup) :
    (builders flavors).map (fun b => b.name)
        = flavors.map docker_buildenv_image_builder_name
          ++ ["repo-sync"] ++ flavors.map clipos_builder_name
          ++ ["clipos ondemand"]
      ∧ ((builders flavors).map (fun b => b.name)).Nodup := by
  have hnames : (builders flavors).map (fun b => b.name)
      = flavors.map docker_buildenv_image_builder_name
        ++ ["repo-sync"] ++ flavors.map clipos_builder_name
        ++ ["clipos ondemand"] := by
    simp only [builders, List.map_append, docker_buildenv_image_builders,
      clipos_on_all_flavors_builders, List.map_map]
    rfl
  refine ⟨hnames, ?_⟩
  rw [hnames, List.append_assoc, List.append_assoc]
  rw [List.nodup_append]
  refine ⟨hnd.map docker_buildenv_image_builder_name_injective, ?_, ?_⟩
  · show ("repo-sync" :: (flavors.map clipos_builder_name
      ++ ["clipos ondemand"])).Nodup
    rw [List.nodup_cons]
    constructor
    · intro h
      rcases List.mem_append.1 h with h2 | h2
      · rcases List.mem_map.1 h2 with ⟨f, hf, he⟩
        exact clipos_name_ne_repo_sync f he
      · rw [List.mem_singleton] at h2
        exact absurd h2 (by decide)
    · rw [List.nodup_append]
      refine ⟨hnd.map clipos_builder_name_injective, List.nodup_singleton _, ?_⟩
      intro x hx hy
      rcases List.mem_map.1 hx with ⟨f, hf, rfl⟩
      rw [List.mem_singleton] at hy
      exact clipos_name_ne_ondemand f hy
  · intro x hx hy
    rcases List.mem_map.1 hx with ⟨g, hg, rfl⟩
    have hy2 : docker_buildenv_image_builder_name g
        ∈ "repo-sync" :: (flavors.map clipos_builder_name
            ++ ["clipos ondemand"]) := hy
    rcases List.mem_cons.1 hy2 with h2 | h2
    · exact repo_sync_ne_docker g h2.symm
    · rcases List.mem_append.1 h2 with h3 | h3
      · rcases List.mem_map.1 h3 with ⟨f, hf, he⟩
        exact clipos_name_ne_docker f g he
      · rw [List.mem_singleton] at h3
        exact ondemand_ne_docker g h3.symm

/-- C10, witness: the builder names of a concrete two-flavor catalog are
pairwise distinct. -/
theorem claim_C10_witness :
    ((builders ["debian-sid", "archlinux"]).map (fun b => b.name)).Nodup :=
  (claim_C10 ["debian-sid", "archlinux"] (by decide)).2

end CiBuildbot
